import Mathlib

/-!
Shallow embedding of `gbhv/vmx.c` (VMX root-mode lifecycle and segment
descriptor translation).

Machine words are modelled as `Nat`; bitfield reads produce the stored
field value, and the one explicit mask in the source (`&= 0xFFFFFFFF` on
the reconstructed base address) is modelled with `&&&`.  The live CPU
state touched by `VmxSetFixedBits` (CR0, CR4 and the four fixed-bit MSRs)
is made an explicit record, and the status flags reported by the
privileged VMX instructions are supplied by an explicit record of status
words (the source checks each status with `!= 0`).
-/

/-- Live per-processor state read and written by `VmxSetFixedBits`:
the two control registers and the four VMX fixed-bit capability MSRs
(`IA32_VMX_CR0_FIXED0/1`, `IA32_VMX_CR4_FIXED0/1`). -/
structure VmxCpu where
  cr0 : Nat
  cr4 : Nat
  cr0fixed0 : Nat
  cr0fixed1 : Nat
  cr4fixed0 : Nat
  cr4fixed1 : Nat
  deriving DecidableEq, Repr

/-- The per-register adjustment performed inline by `VmxSetFixedBits`:
`Flags |= FIXED0; Flags &= FIXED1`. -/
def vmxAdjust (x fixed0 fixed1 : Nat) : Nat :=
  (x ||| fixed0) &&& fixed1

/-- `VmxSetFixedBits` (vmx.c lines 10-29): reads CR0 and CR4, ORs in the
must-be-1 MSR mask and ANDs in the may-be-1 MSR mask for each, and writes
the results back.  The MSRs are read-only and unchanged. -/
def VmxSetFixedBits (cpu : VmxCpu) : VmxCpu :=
  { cpu with
    cr0 := vmxAdjust cpu.cr0 cpu.cr0fixed0 cpu.cr0fixed1
    cr4 := vmxAdjust cpu.cr4 cpu.cr4fixed0 cpu.cr4fixed1 }

/-- The privileged VMX instructions issued by the lifecycle routines. -/
inductive VmxInstruction where
  | vmxon
  | vmclear
  | vmptrld
  | vmxoff
  deriving DecidableEq, Repr

/-- Hardware status words reported by `__vmx_on`, `__vmx_vmclear` and
`__vmx_vmptrld`; the source treats a nonzero status as failure. -/
structure VmxStatuses where
  vmxonStatus : Nat
  vmclearStatus : Nat
  vmptrldStatus : Nat
  deriving DecidableEq, Repr

/-- `VmxEnterRootMode` (vmx.c lines 41-74), observed as the list of
privileged VMX instructions attempted (in order) together with the
returned BOOL.  The routine first runs `ArchEnableVmxe` and
`VmxSetFixedBits` unconditionally (neither can fail), then issues VMXON,
VMCLEAR, VMPTRLD, returning FALSE as soon as one reports a nonzero
status. -/
def VmxEnterRootMode (h : VmxStatuses) : List VmxInstruction × Bool :=
  if h.vmxonStatus != 0 then
    ([VmxInstruction.vmxon], false)
  else if h.vmclearStatus != 0 then
    ([VmxInstruction.vmxon, VmxInstruction.vmclear], false)
  else if h.vmptrldStatus != 0 then
    ([VmxInstruction.vmxon, VmxInstruction.vmclear, VmxInstruction.vmptrld], false)
  else
    ([VmxInstruction.vmxon, VmxInstruction.vmclear, VmxInstruction.vmptrld], true)

/-- `VmxExitRootMode` (vmx.c lines 84-100), observed as the list of
privileged VMX instructions attempted together with the returned BOOL.
It issues VMCLEAR and, if the reported status is nonzero, logs and
returns FALSE immediately; otherwise it issues VMXOFF, runs
`ArchDisableVmxe`, and returns TRUE. -/
def VmxExitRootMode (h : VmxStatuses) : List VmxInstruction × Bool :=
  if h.vmclearStatus != 0 then
    ([VmxInstruction.vmclear], false)
  else
    ([VmxInstruction.vmclear, VmxInstruction.vmxoff], true)

/-- A 16-bit segment selector, held as its raw `Flags` word.
Bitfield layout: RPL in bits 0-1, table indicator in bit 2, index in
bits 3-15. -/
structure SEGMENT_SELECTOR where
  Flags : Nat
  deriving DecidableEq, Repr

/-- Bitfield read `SegmentSelector.RequestPrivilegeLevel` (bits 0-1). -/
def SEGMENT_SELECTOR.RequestPrivilegeLevel (s : SEGMENT_SELECTOR) : Nat :=
  s.Flags % 4

/-- Bitfield read `SegmentSelector.Table` (bit 2). -/
def SEGMENT_SELECTOR.Table (s : SEGMENT_SELECTOR) : Nat :=
  s.Flags / 4 % 2

/-- Bitfield read `SegmentSelector.Index` (bits 3-15). -/
def SEGMENT_SELECTOR.Index (s : SEGMENT_SELECTOR) : Nat :=
  s.Flags / 8

/-- Bitfield write `SegmentSelector.RequestPrivilegeLevel = 0`: clears
bits 0-1 of the flags word, leaving the table and index bits intact. -/
def SEGMENT_SELECTOR.withRplZero (s : SEGMENT_SELECTOR) : SEGMENT_SELECTOR :=
  ⟨s.Flags / 4 * 4⟩

/-- The GDTR value: base linear address and limit of the active global
descriptor table (`SEGMENT_DESCRIPTOR_REGISTER_64`). -/
structure SEGMENT_DESCRIPTOR_REGISTER_64 where
  BaseAddress : Nat
  Limit : Nat
  deriving DecidableEq, Repr

/-- The native 8-byte segment descriptor (`SEGMENT_DESCRIPTOR_64`) as the
translator reads it: limit split across two fields, base across three,
plus the access flags.  The C field `Type` is named `SegmentType` here
because `Type` is reserved in Lean. -/
structure SEGMENT_DESCRIPTOR_64 where
  SegmentLimitLow : Nat
  BaseAddressLow : Nat
  BaseAddressMiddle : Nat
  SegmentType : Nat
  DescriptorType : Nat
  DescriptorPrivilegeLevel : Nat
  Present : Nat
  SegmentLimitHigh : Nat
  System : Nat
  LongMode : Nat
  DefaultBig : Nat
  Granularity : Nat
  BaseAddressUpper : Nat
  deriving DecidableEq, Repr

/-- The access-rights word of the VMX segment descriptor, with its
discrete bitfields. -/
structure VMX_SEGMENT_ACCESS_RIGHTS where
  SegmentType : Nat
  DescriptorType : Nat
  DescriptorPrivilegeLevel : Nat
  Present : Nat
  AvailableBit : Nat
  LongMode : Nat
  DefaultBig : Nat
  Granularity : Nat
  Unusable : Nat
  deriving DecidableEq, Repr

/-- The VMX segment state structure populated by the translator
(`VMX_SEGMENT_DESCRIPTOR`). -/
structure VMX_SEGMENT_DESCRIPTOR where
  Selector : Nat
  SegmentLimit : Nat
  BaseAddress : Nat
  AccessRights : VMX_SEGMENT_ACCESS_RIGHTS
  deriving DecidableEq, Repr

/-- The all-zero output structure produced by `OsZeroMemory`. -/
def zeroVmxSegmentDescriptor : VMX_SEGMENT_DESCRIPTOR :=
  { Selector := 0
    SegmentLimit := 0
    BaseAddress := 0
    AccessRights :=
      { SegmentType := 0, DescriptorType := 0, DescriptorPrivilegeLevel := 0
        Present := 0, AvailableBit := 0, LongMode := 0, DefaultBig := 0
        Granularity := 0, Unusable := 0 } }

/-- Descriptor-table memory: the native descriptor stored at each byte
address.  The translator performs a single 8-byte-stride read from it. -/
def DescriptorMemory := Nat → SEGMENT_DESCRIPTOR_64

/-- `VmxGetSegmentDescriptorFromSelector` (vmx.c lines 109-185), step by
step in source order:
zero the output; mark it unusable when the selector word is zero or its
table indicator is nonzero; fetch the native descriptor at
`GdtRegister.BaseAddress + 8 * SegmentSelector.Index` (the cast
`(PSEGMENT_DESCRIPTOR_64*) base + index` advances in units of a pointer,
8 bytes, and always uses the GDT base); reconstruct the base address from
its three fields and mask it to 32 bits; reconstruct the segment limit
from its two fields; clear the selector RPL when `ClearRPL` is set; copy
the selector flags; copy the access-rights fields across; finally set
`Unusable` to 0 unconditionally. -/
def VmxGetSegmentDescriptorFromSelector (mem : DescriptorMemory)
    (GdtRegister : SEGMENT_DESCRIPTOR_REGISTER_64)
    (SegmentSelector : SEGMENT_SELECTOR) (ClearRPL : Bool) :
    VMX_SEGMENT_DESCRIPTOR :=
  let v0 := zeroVmxSegmentDescriptor
  let v1 :=
    if SegmentSelector.Flags == 0 || SegmentSelector.Table != 0 then
      { v0 with AccessRights := { v0.AccessRights with Unusable := 1 } }
    else v0
  let OsSegmentDescriptor := mem (GdtRegister.BaseAddress + 8 * SegmentSelector.Index)
  let v2 := { v1 with
    BaseAddress :=
      OsSegmentDescriptor.BaseAddressUpper <<< 24 |||
        OsSegmentDescriptor.BaseAddressMiddle <<< 16 |||
        OsSegmentDescriptor.BaseAddressLow }
  let v3 := { v2 with BaseAddress := v2.BaseAddress &&& 0xFFFFFFFF }
  let v4 := { v3 with
    SegmentLimit :=
      OsSegmentDescriptor.SegmentLimitHigh <<< 16 |||
        OsSegmentDescriptor.SegmentLimitLow }
  let sel := if ClearRPL then SegmentSelector.withRplZero else SegmentSelector
  let v5 := { v4 with Selector := sel.Flags }
  let v6 := { v5 with
    AccessRights := { v5.AccessRights with
      SegmentType := OsSegmentDescriptor.SegmentType
      DescriptorType := OsSegmentDescriptor.DescriptorType
      DescriptorPrivilegeLevel := OsSegmentDescriptor.DescriptorPrivilegeLevel
      Present := OsSegmentDescriptor.Present
      AvailableBit := OsSegmentDescriptor.System
      LongMode := OsSegmentDescriptor.LongMode
      DefaultBig := OsSegmentDescriptor.DefaultBig
      Granularity := OsSegmentDescriptor.Granularity } }
  { v6 with AccessRights := { v6.AccessRights with Unusable := 0 } }

/-- Helper: per-bit behaviour of `(a || b) && c` (the bit-level effect of
`vmxAdjust` with live bit `a`, must-be-1 bit `b`, may-be-1 bit `c`). -/
theorem adjustBit_spec (a b c : Bool) :
    (b = true → c = true → ((a || b) && c) = true) ∧
    (c = false → ((a || b) && c) = false) ∧
    (b = false → c = true → ((a || b) && c) = a) := by
  cases a <;> cases b <;> cases c <;> simp

/-- Helper: applying the per-bit adjustment twice equals applying it once. -/
theorem adjustBit_idem (a b c : Bool) :
    (((a || b) && c || b) && c) = ((a || b) && c) := by
  cases a <;> cases b <;> cases c <;> rfl

/-- C1 counterexample: the claim quantifies over every quadruple of
capability masks, but with the self-contradictory masks
`cr0fixed0 = 1`, `cr0fixed1 = 0` the must-be-1 bit 0 is NOT set in the
result: the final AND with the may-be-1 mask clears it. -/
theorem vmxSetFixedBits_claim_cex :
    ∃ (cpu : VmxCpu) (i : Nat),
      cpu.cr0fixed0.testBit i = true ∧
      ((VmxSetFixedBits cpu).cr0).testBit i = false :=
  ⟨⟨0, 0, 1, 0, 0, 0⟩, 0, by decide, by decide⟩

/-- C1 (amended): for every live CR0/CR4 and every mask quadruple, each
must-be-1 bit that the may-be-1 mask permits is set in the result of
`VmxSetFixedBits`, every bit absent from the may-be-1 mask is clear, and
every other bit keeps its live value. -/
theorem vmxSetFixedBits_fixed_bits (cpu : VmxCpu) (i : Nat) :
    (cpu.cr0fixed0.testBit i = true → cpu.cr0fixed1.testBit i = true →
      ((VmxSetFixedBits cpu).cr0).testBit i = true) ∧
    (cpu.cr0fixed1.testBit i = false →
      ((VmxSetFixedBits cpu).cr0).testBit i = false) ∧
    (cpu.cr0fixed0.testBit i = false → cpu.cr0fixed1.testBit i = true →
      ((VmxSetFixedBits cpu).cr0).testBit i = cpu.cr0.testBit i) ∧
    (cpu.cr4fixed0.testBit i = true → cpu.cr4fixed1.testBit i = true →
      ((VmxSetFixedBits cpu).cr4).testBit i = true) ∧
    (cpu.cr4fixed1.testBit i = false →
      ((VmxSetFixedBits cpu).cr4).testBit i = false) ∧
    (cpu.cr4fixed0.testBit i = false → cpu.cr4fixed1.testBit i = true →
      ((VmxSetFixedBits cpu).cr4).testBit i = cpu.cr4.testBit i) := by
  have h0 := adjustBit_spec (cpu.cr0.testBit i) (cpu.cr0fixed0.testBit i)
    (cpu.cr0fixed1.testBit i)
  have h4 := adjustBit_spec (cpu.cr4.testBit i) (cpu.cr4fixed0.testBit i)
    (cpu.cr4fixed1.testBit i)
  simp only [VmxSetFixedBits, vmxAdjust, Nat.testBit_land, Nat.testBit_lor]
  exact ⟨h0.1, h0.2.1, h0.2.2, h4.1, h4.2.1, h4.2.2⟩

/-- C1 witness: concrete instance of the amended fixed-bit theorem. -/
theorem vmxSetFixedBits_fixed_bits_witness :
    ((VmxSetFixedBits ⟨0, 0, 1, 1, 0, 1⟩).cr0).testBit 0 = true :=
  (vmxSetFixedBits_fixed_bits ⟨0, 0, 1, 1, 0, 1⟩ 0).1 (by decide) (by decide)

/-- C10: the fixed-bit adjustment `(x | fixed0) & fixed1` is idempotent —
for every live value and every mask pair, contradictory masks included —
and hence `VmxSetFixedBits` itself is idempotent on the CPU state. -/
theorem vmxSetFixedBits_idempotent :
    (∀ x fixed0 fixed1 : Nat,
      vmxAdjust (vmxAdjust x fixed0 fixed1) fixed0 fixed1 =
        vmxAdjust x fixed0 fixed1) ∧
    (∀ cpu : VmxCpu, VmxSetFixedBits (VmxSetFixedBits cpu) = VmxSetFixedBits cpu) := by
  have key : ∀ x fixed0 fixed1 : Nat,
      vmxAdjust (vmxAdjust x fixed0 fixed1) fixed0 fixed1 =
        vmxAdjust x fixed0 fixed1 := by
    intro x fixed0 fixed1
    apply Nat.eq_of_testBit_eq
    intro i
    simp only [vmxAdjust, Nat.testBit_land, Nat.testBit_lor]
    exact adjustBit_idem _ _ _
  refine ⟨key, fun cpu => ?_⟩
  cases cpu with
  | mk cr0 cr4 a b c d =>
    simp only [VmxSetFixedBits, VmxCpu.mk.injEq]
    exact ⟨key cr0 a b, key cr4 c d, trivial, trivial, trivial, trivial⟩

/-- C2: `VmxEnterRootMode` attempts VMXON, VMCLEAR, VMPTRLD strictly in
that order; a failure at step k stops the sequence there and returns
failure, and the routine returns success exactly when all three statuses
report success. -/
theorem vmxEnterRootMode_ordered (h : VmxStatuses) :
    List.IsPrefix (VmxEnterRootMode h).1
      [VmxInstruction.vmxon, VmxInstruction.vmclear, VmxInstruction.vmptrld] ∧
    ((VmxEnterRootMode h).2 = true ↔
      h.vmxonStatus = 0 ∧ h.vmclearStatus = 0 ∧ h.vmptrldStatus = 0) ∧
    (h.vmxonStatus ≠ 0 →
      (VmxEnterRootMode h).1 = [VmxInstruction.vmxon] ∧
        (VmxEnterRootMode h).2 = false) ∧
    (h.vmxonStatus = 0 → h.vmclearStatus ≠ 0 →
      (VmxEnterRootMode h).1 = [VmxInstruction.vmxon, VmxInstruction.vmclear] ∧
        (VmxEnterRootMode h).2 = false) ∧
    (h.vmxonStatus = 0 → h.vmclearStatus = 0 → h.vmptrldStatus ≠ 0 →
      (VmxEnterRootMode h).1 =
          [VmxInstruction.vmxon, VmxInstruction.vmclear, VmxInstruction.vmptrld] ∧
        (VmxEnterRootMode h).2 = false) := by
  by_cases e1 : h.vmxonStatus = 0
  · by_cases e2 : h.vmclearStatus = 0
    · by_cases e3 : h.vmptrldStatus = 0
      · exact ⟨⟨[], by simp [VmxEnterRootMode, e1, e2, e3]⟩,
          by simp [VmxEnterRootMode, e1, e2, e3]⟩
      · exact ⟨⟨[], by simp [VmxEnterRootMode, e1, e2, e3]⟩,
          by simp [VmxEnterRootMode, e1, e2, e3]⟩
    · exact ⟨⟨[VmxInstruction.vmptrld], by simp [VmxEnterRootMode, e1, e2]⟩,
        by simp [VmxEnterRootMode, e1, e2]⟩
  · exact ⟨⟨[VmxInstruction.vmclear, VmxInstruction.vmptrld],
        by simp [VmxEnterRootMode, e1]⟩,
      by simp [VmxEnterRootMode, e1]⟩

/-- C2 witness: with VMCLEAR failing, only VMXON and VMCLEAR are
attempted and the routine returns failure. -/
theorem vmxEnterRootMode_ordered_witness :
    (VmxEnterRootMode ⟨0, 1, 0⟩).1 = [VmxInstruction.vmxon, VmxInstruction.vmclear] ∧
      (VmxEnterRootMode ⟨0, 1, 0⟩).2 = false :=
  (vmxEnterRootMode_ordered ⟨0, 1, 0⟩).2.2.2.1 rfl (by decide)

/-- C4 counterexample: with a failing VMCLEAR status, `VmxExitRootMode`
attempts only VMCLEAR and returns failure — VMXOFF is NOT attempted, so
the claim that both operations are attempted even on clear failure is
false on the code. -/
theorem vmxExitRootMode_claim_cex :
    (VmxExitRootMode ⟨0, 1, 0⟩).1 = [VmxInstruction.vmclear] ∧
      VmxInstruction.vmxoff ∉ (VmxExitRootMode ⟨0, 1, 0⟩).1 ∧
      (VmxExitRootMode ⟨0, 1, 0⟩).2 = false := by
  decide

/-- C4 (amended): `VmxExitRootMode` always attempts VMCLEAR first; when
VMCLEAR reports success it then attempts VMXOFF and returns success, and
when VMCLEAR reports failure it returns failure without attempting
VMXOFF. -/
theorem vmxExitRootMode_clear_first (h : VmxStatuses) :
    (VmxExitRootMode h).1.head? = some VmxInstruction.vmclear ∧
    (h.vmclearStatus = 0 →
      (VmxExitRootMode h).1 = [VmxInstruction.vmclear, VmxInstruction.vmxoff] ∧
        (VmxExitRootMode h).2 = true) ∧
    (h.vmclearStatus ≠ 0 →
      (VmxExitRootMode h).1 = [VmxInstruction.vmclear] ∧
        (VmxExitRootMode h).2 = false) := by
  by_cases e : h.vmclearStatus = 0 <;> simp [VmxExitRootMode, e]

/-- C4 witness: with a succeeding VMCLEAR status, both instructions are
attempted in order and the routine returns success. -/
theorem vmxExitRootMode_clear_first_witness :
    (VmxExitRootMode ⟨0, 0, 0⟩).1 = [VmxInstruction.vmclear, VmxInstruction.vmxoff] ∧
      (VmxExitRootMode ⟨0, 0, 0⟩).2 = true :=
  (vmxExitRootMode_clear_first ⟨0, 0, 0⟩).2.1 rfl

/-- An all-zero native descriptor, used as concrete test data. -/
def zeroOsDescriptor : SEGMENT_DESCRIPTOR_64 :=
  ⟨0, 0, 0, 0, 0, 0, 0, 0, 0, 0, 0, 0, 0⟩

/-- Descriptor memory holding the same native descriptor at every
address, used as concrete test data. -/
def constDescriptorMemory (d : SEGMENT_DESCRIPTOR_64) : DescriptorMemory :=
  fun _ => d

/-- C3: for every selector (zero and local-table selectors included),
descriptor-table register and `ClearRPL` flag, the translator output has
`AccessRights.Unusable = 0`: the final unconditional write overwrites the
earlier null/local-table classification. -/
theorem vmxSegment_unusable_cleared (mem : DescriptorMemory)
    (gdtr : SEGMENT_DESCRIPTOR_REGISTER_64) (sel : SEGMENT_SELECTOR)
    (clearRpl : Bool) :
    (VmxGetSegmentDescriptorFromSelector mem gdtr sel clearRpl).AccessRights.Unusable = 0 :=
  rfl

/-- C5: the translator reads the native descriptor from
`GdtRegister.BaseAddress + Index * 8` — the GDT base with an 8-byte
stride — for every selector, so two selectors with the same index (for
example one naming the global and one naming the local table) yield the
same descriptor-derived output fields. -/
theorem vmxSegment_reads_gdt_base (mem : DescriptorMemory)
    (gdtr : SEGMENT_DESCRIPTOR_REGISTER_64) (sel sel' : SEGMENT_SELECTOR)
    (clearRpl clearRpl' : Bool) (hidx : sel'.Index = sel.Index) :
    ((VmxGetSegmentDescriptorFromSelector mem gdtr sel clearRpl).BaseAddress =
      (((mem (gdtr.BaseAddress + sel.Index * 8)).BaseAddressUpper <<< 24 |||
        (mem (gdtr.BaseAddress + sel.Index * 8)).BaseAddressMiddle <<< 16 |||
        (mem (gdtr.BaseAddress + sel.Index * 8)).BaseAddressLow) &&& 0xFFFFFFFF)) ∧
    ((VmxGetSegmentDescriptorFromSelector mem gdtr sel clearRpl).SegmentLimit =
      ((mem (gdtr.BaseAddress + sel.Index * 8)).SegmentLimitHigh <<< 16 |||
        (mem (gdtr.BaseAddress + sel.Index * 8)).SegmentLimitLow)) ∧
    ((VmxGetSegmentDescriptorFromSelector mem gdtr sel' clearRpl').BaseAddress =
      (VmxGetSegmentDescriptorFromSelector mem gdtr sel clearRpl).BaseAddress) ∧
    ((VmxGetSegmentDescriptorFromSelector mem gdtr sel' clearRpl').SegmentLimit =
      (VmxGetSegmentDescriptorFromSelector mem gdtr sel clearRpl).SegmentLimit) ∧
    ((VmxGetSegmentDescriptorFromSelector mem gdtr sel' clearRpl').AccessRights =
      (VmxGetSegmentDescriptorFromSelector mem gdtr sel clearRpl).AccessRights) := by
  simp [VmxGetSegmentDescriptorFromSelector, zeroVmxSegmentDescriptor, hidx,
    Nat.mul_comm]

/-- C5 witness: a selector whose table indicator names the local table
(bit 2 set) reads the same descriptor-derived fields as the global-table
selector with the same index. -/
theorem vmxSegment_reads_gdt_base_witness :
    (VmxGetSegmentDescriptorFromSelector (constDescriptorMemory zeroOsDescriptor)
        ⟨0, 0⟩ ⟨12⟩ false).BaseAddress =
      (((constDescriptorMemory zeroOsDescriptor
          ((0 : Nat) + (SEGMENT_SELECTOR.mk 12).Index * 8)).BaseAddressUpper <<< 24 |||
        (constDescriptorMemory zeroOsDescriptor
          ((0 : Nat) + (SEGMENT_SELECTOR.mk 12).Index * 8)).BaseAddressMiddle <<< 16 |||
        (constDescriptorMemory zeroOsDescriptor
          ((0 : Nat) + (SEGMENT_SELECTOR.mk 12).Index * 8)).BaseAddressLow) &&& 0xFFFFFFFF) :=
  (vmxSegment_reads_gdt_base (constDescriptorMemory zeroOsDescriptor)
    ⟨0, 0⟩ ⟨12⟩ ⟨8⟩ false false (by decide)).1

/-- C6: with `ClearRPL` set and a selector with nonzero RPL, the output
selector has RPL zero with index and table indicator unchanged; with
`ClearRPL` clear, the output selector equals the input flags word
verbatim. -/
theorem vmxSegment_selector_rpl (mem : DescriptorMemory)
    (gdtr : SEGMENT_DESCRIPTOR_REGISTER_64) (sel : SEGMENT_SELECTOR) :
    (sel.RequestPrivilegeLevel ≠ 0 →
      (SEGMENT_SELECTOR.mk
          ((VmxGetSegmentDescriptorFromSelector mem gdtr sel true).Selector)).RequestPrivilegeLevel = 0 ∧
      (SEGMENT_SELECTOR.mk
          ((VmxGetSegmentDescriptorFromSelector mem gdtr sel true).Selector)).Index = sel.Index ∧
      (SEGMENT_SELECTOR.mk
          ((VmxGetSegmentDescriptorFromSelector mem gdtr sel true).Selector)).Table = sel.Table) ∧
    ((VmxGetSegmentDescriptorFromSelector mem gdtr sel false).Selector = sel.Flags) := by
  refine ⟨fun _ => ⟨?_, ?_, ?_⟩, ?_⟩ <;>
    simp [VmxGetSegmentDescriptorFromSelector, zeroVmxSegmentDescriptor,
      SEGMENT_SELECTOR.withRplZero, SEGMENT_SELECTOR.RequestPrivilegeLevel,
      SEGMENT_SELECTOR.Index, SEGMENT_SELECTOR.Table] <;>
    omega

/-- C6 witness: concrete selector with RPL 3 has its RPL cleared when
`ClearRPL` is set. -/
theorem vmxSegment_selector_rpl_witness :
    (SEGMENT_SELECTOR.mk
        ((VmxGetSegmentDescriptorFromSelector (constDescriptorMemory zeroOsDescriptor)
            ⟨0, 0⟩ ⟨11⟩ true).Selector)).RequestPrivilegeLevel = 0 :=
  ((vmxSegment_selector_rpl (constDescriptorMemory zeroOsDescriptor)
    ⟨0, 0⟩ ⟨11⟩).1 (by decide)).1

/-- C7: with descriptor base fields low `0x1234`, middle `0x56`, upper
`0x78`, the reconstructed (and 32-bit-masked) base address is
`0x78561234`; the mask is a no-op for this value. -/
theorem vmxSegment_base_reconstruction (mem : DescriptorMemory)
    (gdtr : SEGMENT_DESCRIPTOR_REGISTER_64) (sel : SEGMENT_SELECTOR)
    (clearRpl : Bool)
    (hlow : (mem (gdtr.BaseAddress + 8 * sel.Index)).BaseAddressLow = 0x1234)
    (hmid : (mem (gdtr.BaseAddress + 8 * sel.Index)).BaseAddressMiddle = 0x56)
    (hup : (mem (gdtr.BaseAddress + 8 * sel.Index)).BaseAddressUpper = 0x78) :
    (VmxGetSegmentDescriptorFromSelector mem gdtr sel clearRpl).BaseAddress = 0x78561234 := by
  simp only [VmxGetSegmentDescriptorFromSelector, zeroVmxSegmentDescriptor,
    hlow, hmid, hup]
  decide

/-- Native descriptor with the C7 base-address field values. -/
def c7Descriptor : SEGMENT_DESCRIPTOR_64 :=
  ⟨0, 0x1234, 0x56, 0, 0, 0, 0, 0, 0, 0, 0, 0, 0x78⟩

/-- C7 witness: concrete table holding the C7 descriptor. -/
theorem vmxSegment_base_reconstruction_witness :
    (VmxGetSegmentDescriptorFromSelector (constDescriptorMemory c7Descriptor)
        ⟨0, 0⟩ ⟨8⟩ false).BaseAddress = 0x78561234 :=
  vmxSegment_base_reconstruction (constDescriptorMemory c7Descriptor)
    ⟨0, 0⟩ ⟨8⟩ false rfl rfl rfl

/-- C8: with descriptor limit fields low `0xABCD` and high `0x3`, the
reconstructed segment limit is `0x3ABCD`. -/
theorem vmxSegment_limit_reconstruction (mem : DescriptorMemory)
    (gdtr : SEGMENT_DESCRIPTOR_REGISTER_64) (sel : SEGMENT_SELECTOR)
    (clearRpl : Bool)
    (hlow : (mem (gdtr.BaseAddress + 8 * sel.Index)).SegmentLimitLow = 0xABCD)
    (hhigh : (mem (gdtr.BaseAddress + 8 * sel.Index)).SegmentLimitHigh = 0x3) :
    (VmxGetSegmentDescriptorFromSelector mem gdtr sel clearRpl).SegmentLimit = 0x3ABCD := by
  simp only [VmxGetSegmentDescriptorFromSelector, zeroVmxSegmentDescriptor,
    hlow, hhigh]
  decide

/-- Native descriptor with the C8 segment-limit field values. -/
def c8Descriptor : SEGMENT_DESCRIPTOR_64 :=
  ⟨0xABCD, 0, 0, 0, 0, 0, 0, 0x3, 0, 0, 0, 0, 0⟩

/-- C8 witness: concrete table holding the C8 descriptor. -/
theorem vmxSegment_limit_reconstruction_witness :
    (VmxGetSegmentDescriptorFromSelector (constDescriptorMemory c8Descriptor)
        ⟨0, 0⟩ ⟨8⟩ false).SegmentLimit = 0x3ABCD :=
  vmxSegment_limit_reconstruction (constDescriptorMemory c8Descriptor)
    ⟨0, 0⟩ ⟨8⟩ false rfl rfl

/-- C9: the translator is a pure function of its inputs — two
invocations with the same selector, table register and flag over
descriptor memories that hold the same descriptor at the (single) read
address produce bit-identical outputs. -/
theorem vmxSegment_deterministic (mem₁ mem₂ : DescriptorMemory)
    (gdtr : SEGMENT_DESCRIPTOR_REGISTER_64) (sel : SEGMENT_SELECTOR)
    (clearRpl : Bool)
    (hmem : mem₁ (gdtr.BaseAddress + 8 * sel.Index) =
      mem₂ (gdtr.BaseAddress + 8 * sel.Index)) :
    VmxGetSegmentDescriptorFromSelector mem₁ gdtr sel clearRpl =
      VmxGetSegmentDescriptorFromSelector mem₂ gdtr sel clearRpl := by
  simp only [VmxGetSegmentDescriptorFromSelector, hmem]

/-- C9 witness: two identical memories yield identical outputs. -/
theorem vmxSegment_deterministic_witness :
    VmxGetSegmentDescriptorFromSelector (constDescriptorMemory zeroOsDescriptor)
        ⟨0, 0⟩ ⟨16⟩ true =
      VmxGetSegmentDescriptorFromSelector (constDescriptorMemory zeroOsDescriptor)
        ⟨0, 0⟩ ⟨16⟩ true :=
  vmxSegment_deterministic (constDescriptorMemory zeroOsDescriptor)
    (constDescriptorMemory zeroOsDescriptor) ⟨0, 0⟩ ⟨16⟩ true rfl
